import Mathlib

/-!
Verification of the microplastics-viewer mitigation pipeline.

This file embeds, in Lean, the algorithmic core of the repository:
the mitigation rule engine, the lat/lon grid sampler, the CSV cleaning
rule, and the versioned model-cache fallback.  JavaScript numbers are
modelled as exact rationals; the floating-point representation of the
literals involved is not modelled.  Each claim about the program is then
stated and settled as a theorem below the definitions.
-/

/-- Kind of a mitigation tactic: the string field named type in the source
objects, one of "none", "perYear", "oneTime". -/
inductive TacticType
  | none
  | perYear
  | oneTime
deriving DecidableEq

/-- One entry of the mitigation-tactic catalog in
AIYearHeatmapMitigation.jsx (lines 38-136).  The label and description
strings are presentation-only and omitted.  The applies field is the
geographic predicate of the tactic. -/
structure Tactic where
  value : String
  type : TacticType
  rate : ℚ
  applies : ℚ → ℚ → Bool

/-- Catalog entry "none" (AIYearHeatmapMitigation.jsx lines 39-46). -/
def noneTactic : Tactic :=
  ⟨"none", TacticType.none, 0, fun _ _ => true⟩

/-- Catalog entry "coastal" (lines 47-54). -/
def coastalTactic : Tactic :=
  ⟨"coastal", TacticType.perYear, 0.2, fun lat lon => decide (|lat| < 15 ∨ |lon| < 15)⟩

/-- Catalog entry "openocean" (lines 55-62). -/
def openoceanTactic : Tactic :=
  ⟨"openocean", TacticType.perYear, 0.3, fun lat lon => decide (15 ≤ |lat| ∧ 15 ≤ |lon|)⟩

/-- Catalog entry "globalban" (lines 63-70). -/
def globalbanTactic : Tactic :=
  ⟨"globalban", TacticType.oneTime, 0.5, fun _ _ => true⟩

/-- Catalog entry "river" (lines 71-78). -/
def riverTactic : Tactic :=
  ⟨"river", TacticType.perYear, 0.4, fun lat _ => decide (-10 ≤ lat ∧ lat ≤ 10)⟩

/-- Catalog entry "biodegradable" (lines 80-87). -/
def biodegradableTactic : Tactic :=
  ⟨"biodegradable", TacticType.oneTime, 0.25, fun _ _ => true⟩

/-- Catalog entry "industrial" (lines 88-95). -/
def industrialTactic : Tactic :=
  ⟨"industrial", TacticType.perYear, 0.35, fun lat lon => decide (|lat| < 30 ∧ |lon| < 30)⟩

/-- Catalog entry "awareness" (lines 96-103). -/
def awarenessTactic : Tactic :=
  ⟨"awareness", TacticType.oneTime, 0.15, fun _ _ => true⟩

/-- Catalog entry "wastemanagement" (lines 104-111). -/
def wastemanagementTactic : Tactic :=
  ⟨"wastemanagement", TacticType.perYear, 0.4, fun lat lon => decide (|lat| ≤ 45 ∧ |lon| ≤ 45)⟩

/-- Catalog entry "legislation" (lines 112-119). -/
def legislationTactic : Tactic :=
  ⟨"legislation", TacticType.oneTime, 0.3, fun _ _ => true⟩

/-- Catalog entry "oceanrestoration" (lines 120-127). -/
def oceanrestorationTactic : Tactic :=
  ⟨"oceanrestoration", TacticType.oneTime, 0.2, fun _ _ => true⟩

/-- Catalog entry "erosioncontrol" (lines 128-135). -/
def erosioncontrolTactic : Tactic :=
  ⟨"erosioncontrol", TacticType.perYear, 0.25, fun lat _ => decide (-20 ≤ lat ∧ lat ≤ 20)⟩

/-- The tactics catalog of AIYearHeatmapMitigation.jsx (lines 38-136).
The catalog constant in MitigationSim.jsx (lines 9-22) lists the same
twelve entries with identical kinds, rates and predicates. -/
def tactics : List Tactic :=
  [noneTactic, coastalTactic, openoceanTactic, globalbanTactic, riverTactic,
   biodegradableTactic, industrialTactic, awarenessTactic, wastemanagementTactic,
   legislationTactic, oceanrestorationTactic, erosioncontrolTactic]

/-- Embeds applyMitigationStrategy from AIYearHeatmapMitigation.jsx
(lines 511-534).  The source looks the tactic up by its value string,
returns the value unchanged when the lookup fails or the predicate is
false, otherwise applies the per-year power decay (with the floor of the
elapsed years as exponent) or the one-time factor, and finally clamps
the result at zero with Math.max. -/
def applyMitigationStrategy (value : ℚ) (tacticVal : String) (lat lon : ℚ) (years : ℚ) : ℚ :=
  match tactics.find? (fun t => t.value == tacticVal) with
  | Option.none => value
  | Option.some t =>
    if t.applies lat lon = true then
      max (match t.type with
           | TacticType.perYear => value * (1 - t.rate) ^ ⌊years⌋
           | TacticType.oneTime => value * (1 - t.rate)
           | TacticType.none => value) 0
    else value

/-- Embeds applyMitigation from MitigationSim.jsx (lines 59-66).  The
source reads lat and lon out of the CSV row; here they are passed
directly.  It returns 0 for any value at most 0, the value unchanged
when the tactic is unknown, of kind none, or its predicate is false,
and otherwise one application of the rate, clamped at zero. -/
def MitigationSim.applyMitigation (value : ℚ) (tacticVal : String) (lat lon : ℚ) : ℚ :=
  if value ≤ 0 then 0
  else
    match tactics.find? (fun t => t.value == tacticVal) with
    | Option.none => value
    | Option.some t =>
      if t.type = TacticType.none then value
      else if t.applies lat lon = true then max (value * (1 - t.rate)) 0
      else value

/-- Embeds applyMitigation from the unnamed source file part_002
(lines 61-91): a switch over the five early tactic ids with hardcoded
one-shot multipliers. -/
def Part002.applyMitigation (value : ℚ) (tacticVal : String) (lat lon : ℚ) : ℚ :=
  if value ≤ 0 then 0
  else if tacticVal = "coastal" then
    if |lat| < 15 ∨ |lon| < 15 then value * 0.8 else value
  else if tacticVal = "openocean" then
    if 15 ≤ |lat| ∧ 15 ≤ |lon| then value * 0.7 else value
  else if tacticVal = "globalban" then value * 0.5
  else if tacticVal = "river" then
    if -10 ≤ lat ∧ lat ≤ 10 then value * 0.6 else value
  else value

/-- The bounding box computed over the cleaned data set
(AIYearHeatmapMitigation.jsx lines 276-307). -/
structure BoundingBox where
  minLat : ℚ
  maxLat : ℚ
  minLon : ℚ
  maxLon : ℚ
  minYear : ℚ
  maxYear : ℚ

/-- One axis of the sampling grid: the JS loop
for (x = Math.floor(lo); x <= Math.ceil(hi); x += step)
(AIYearHeatmapMitigation.jsx lines 452-458), already applied to integer
endpoints.  Empty when lo exceeds hi, otherwise the arithmetic
progression lo, lo+step, ... up to the last term at most hi. -/
def axisPoints (lo hi : ℤ) (step : ℕ) : List ℤ :=
  if lo ≤ hi then
    (List.range ((hi - lo).toNat / step + 1)).map (fun (k : ℕ) => lo + (k : ℤ) * (step : ℤ))
  else []

/-- The hardcoded grid step of generatePredictions (line 450). -/
def gridStep : ℕ := 10

/-- The latPoints array of generatePredictions (lines 451-454). -/
def latPoints (box : BoundingBox) : List ℤ :=
  axisPoints ⌊box.minLat⌋ ⌈box.maxLat⌉ gridStep

/-- The lonPoints array of generatePredictions (lines 455-458). -/
def lonPoints (box : BoundingBox) : List ℤ :=
  axisPoints ⌊box.minLon⌋ ⌈box.maxLon⌉ gridStep

/-- The inputArray of generatePredictions (lines 464-469): the outer
forEach ranges over lonPoints, the inner one over latPoints, so the
emitted (lat, lon) pairs are in longitude-major, latitude-minor order.
The constant target year appended to each entry in the source is not
part of the grid and is omitted. -/
def inputArray (box : BoundingBox) : List (ℤ × ℤ) :=
  (lonPoints box).flatMap (fun lon => (latPoints box).map (fun lat => (lat, lon)))

/-- A raw CSV cell as seen through parseFloat(row[key] or-else ""):
either the key is absent (or the cell empty), the cell does not parse
as a number, or it is the number q. -/
inductive RawField
  | missing
  | nonNumeric
  | num (q : ℚ)
deriving DecidableEq

/-- A raw CSV record restricted to the four columns the cleaning rule
of parseCsv reads (AIYearHeatmapMitigation.jsx lines 209-248). -/
structure RawRow where
  lat : RawField
  lon : RawField
  pieces : RawField
  year : RawField
deriving DecidableEq

/-- parseFloat(row[key] or-else "") as an optional rational: missing and
non-numeric cells give NaN, modelled as Option.none. -/
def parseNum : RawField → Option ℚ
  | RawField.missing => Option.none
  | RawField.nonNumeric => Option.none
  | RawField.num q => Option.some q

/-- The default year constant of parseCsv (line 214). -/
def defaultYear : ℚ := 2025

/-- The year branch of the cleaning rule (lines 213-226): a missing (or
empty) year cell gets the default year, a present but unparseable year
rejects the row (modelled as Option.none), a numeric year is kept. -/
def yearParse : RawField → Option ℚ
  | RawField.missing => Option.some defaultYear
  | RawField.nonNumeric => Option.none
  | RawField.num q => Option.some q

/-- A validated observation produced by the cleaning rule; the year is
the parsed or defaulted year the source writes back into the row. -/
structure Observation where
  lat : ℚ
  lon : ℚ
  pieces : ℚ
  year : ℚ
deriving DecidableEq

/-- The per-record cleaning rule of parseCsv (lines 209-248) as one
function: the row is dropped when the year is present but unparseable,
when latitude, longitude or concentration is missing or non-numeric,
or when one of those three equals the sentinel -9999; otherwise the
validated observation is kept, carrying the (possibly defaulted)
year. -/
def cleanRow (r : RawRow) : Option Observation :=
  match yearParse r.year, parseNum r.lat, parseNum r.lon, parseNum r.pieces with
  | Option.some y, Option.some la, Option.some lo, Option.some pc =>
    if la = -9999 ∨ lo = -9999 ∨ pc = -9999 then Option.none
    else Option.some ⟨la, lo, pc, y⟩
  | _, _, _, _ => Option.none

/-- The cleaned row sequence: results.data.filter(...) keeps, in source
order, exactly the rows the cleaning rule accepts. -/
def cleanRows (rows : List RawRow) : List RawRow :=
  rows.filter (fun r => (cleanRow r).isSome)

/-- The shape data of a cached layers model; the current architecture
takes the three features lat, lon, year and emits one output
(AIYearHeatmapMitigation.jsx lines 370-374). -/
structure SavedModel where
  inputShape : ℕ
  outputShape : ℕ
deriving DecidableEq

/-- The model version constant (line 139). -/
def MODEL_VERSION : String := "v2"

/-- The versioned local-storage key of the cached model (line 140). -/
def MODEL_URL : String := "localstorage://microplastics-model-" ++ MODEL_VERSION

/-- Input dimensionality of the current architecture (line 372). -/
def expectedInputShape : ℕ := 3

/-- The browser local-storage model cache: a list of key/model pairs. -/
abbrev ModelStore := List (String × SavedModel)

/-- Modelled from the spec: tf.loadLayersModel over the cached-model
blob store is external library code absent from the repository; spec
section 6 fixes its contract as a key-value blob store where loading
by an unknown key is a cache miss, not a fatal error. -/
def loadLayersModel (store : ModelStore) (url : String) : Option SavedModel :=
  (store.find? (fun e => e.1 == url)).map (fun e => e.2)

/-- Outcome of the mount effect: either an existing cached model is
used, or a fresh model is trained. -/
inductive MountResult
  | useLoaded (m : SavedModel)
  | retrain
deriving DecidableEq

/-- Embeds the mount effect of AIYearHeatmapMitigation (lines 164-187):
try to load the model stored under the current versioned key; any load
failure is caught and falls through to parseCsv(true), which trains a
fresh model. -/
def mountModel (store : ModelStore) : MountResult :=
  match loadLayersModel store MODEL_URL with
  | Option.some m => MountResult.useLoaded m
  | Option.none => MountResult.retrain

/-- Every rate in the catalog lies between 0 and 1. -/
lemma rate_bounds : ∀ t ∈ tactics, 0 ≤ t.rate ∧ t.rate ≤ 1 := by
  intro t ht
  fin_cases ht <;> norm_num [noneTactic, coastalTactic, openoceanTactic, globalbanTactic,
    riverTactic, biodegradableTactic, industrialTactic, awarenessTactic,
    wastemanagementTactic, legislationTactic, oceanrestorationTactic, erosioncontrolTactic]

/-- Unfolding of applyMitigationStrategy when the catalog lookup
succeeds. -/
lemma applyMitigationStrategy_found {tacticVal : String} {t : Tactic}
    (h : tactics.find? (fun x => x.value == tacticVal) = Option.some t)
    (value lat lon years : ℚ) :
    applyMitigationStrategy value tacticVal lat lon years =
      if t.applies lat lon = true then
        max (match t.type with
             | TacticType.perYear => value * (1 - t.rate) ^ ⌊years⌋
             | TacticType.oneTime => value * (1 - t.rate)
             | TacticType.none => value) 0
      else value := by
  unfold applyMitigationStrategy
  rw [h]

/-- Unfolding of applyMitigationStrategy when the catalog lookup
fails. -/
lemma applyMitigationStrategy_not_found {tacticVal : String}
    (h : tactics.find? (fun x => x.value == tacticVal) = Option.none)
    (value lat lon years : ℚ) :
    applyMitigationStrategy value tacticVal lat lon years = value := by
  unfold applyMitigationStrategy
  rw [h]

/-- A nonnegative power of a factor between 0 and 1 is at most 1. -/
lemma zpow_factor_le_one {b : ℚ} (h0 : 0 ≤ b) (h1 : b ≤ 1) {n : ℤ} (hn : 0 ≤ n) :
    b ^ n ≤ 1 := by
  obtain ⟨m, rfl⟩ := Int.eq_ofNat_of_zero_le hn
  rw [zpow_natCast]
  exact pow_le_one₀ h0 h1

/-- Catalog lookup of the river tactic. -/
lemma find_river : tactics.find? (fun x => x.value == "river") = Option.some riverTactic := by
  simp [tactics, List.find?, noneTactic, coastalTactic, openoceanTactic, globalbanTactic,
    riverTactic]

/-- Catalog lookup of the globalban tactic. -/
lemma find_globalban :
    tactics.find? (fun x => x.value == "globalban") = Option.some globalbanTactic := by
  simp [tactics, List.find?, noneTactic, coastalTactic, openoceanTactic, globalbanTactic]

/-- Catalog lookup of the none tactic. -/
lemma find_none : tactics.find? (fun x => x.value == "none") = Option.some noneTactic := by
  simp [tactics, List.find?, noneTactic]

/-- Membership in one grid axis: exactly the points of the stepped
progression from lo that do not exceed hi. -/
lemma mem_axisPoints {lo hi : ℤ} {step : ℕ} (hstep : 0 < step) {a : ℤ} :
    a ∈ axisPoints lo hi step ↔ ∃ k : ℕ, a = lo + (k : ℤ) * (step : ℤ) ∧ a ≤ hi := by
  unfold axisPoints
  by_cases h : lo ≤ hi
  · rw [if_pos h]
    constructor
    · intro ha
      obtain ⟨k, hk, hEq⟩ := List.mem_map.mp ha
      have hk1 : k < (hi - lo).toNat / step + 1 := List.mem_range.mp hk
      have hk2 : k ≤ (hi - lo).toNat / step := Nat.lt_succ_iff.mp hk1
      have hk3 : k * step ≤ (hi - lo).toNat := (Nat.le_div_iff_mul_le hstep).mp hk2
      have hk4 : ((k * step : ℕ) : ℤ) ≤ (((hi - lo).toNat : ℕ) : ℤ) := Int.ofNat_le.mpr hk3
      rw [Int.toNat_of_nonneg (by omega)] at hk4
      push_cast at hk4
      exact ⟨k, hEq.symm, by omega⟩
    · rintro ⟨k, rfl, hle⟩
      refine List.mem_map.mpr ⟨k, List.mem_range.mpr ?_, rfl⟩
      rw [Nat.lt_succ_iff, Nat.le_div_iff_mul_le hstep]
      have h2 : ((k * step : ℕ) : ℤ) ≤ hi - lo := by push_cast; omega
      have h3 : ((k * step : ℕ) : ℤ) ≤ (((hi - lo).toNat : ℕ) : ℤ) := by
        rw [Int.toNat_of_nonneg (by omega)]
        exact h2
      exact_mod_cast h3
  · rw [if_neg h]
    simp only [List.not_mem_nil, false_iff, not_exists, not_and]
    intro k hk
    have hks : (0 : ℤ) ≤ (k : ℤ) * (step : ℤ) := by positivity
    omega

/-- Claim C1, amended: the raw value is additionally assumed
nonnegative; for a negative raw value the final clamp at zero replaces
the negative product, as the counterexample shows.  For a PerYear
tactic whose predicate holds at the location and elapsed years at
least 0, the apply operation returns the raw value times
(1 - rate) raised to the floor of the elapsed years, and the
fractional part of the elapsed years contributes no additional
decay. -/
theorem perYear_apply_decay (tacticVal : String) (t : Tactic)
    (hfind : tactics.find? (fun x => x.value == tacticVal) = Option.some t)
    (htype : t.type = TacticType.perYear)
    (v lat lon years : ℚ)
    (happ : t.applies lat lon = true)
    (hv : 0 ≤ v) (_hy : 0 ≤ years) :
    applyMitigationStrategy v tacticVal lat lon years = v * (1 - t.rate) ^ ⌊years⌋ ∧
      applyMitigationStrategy v tacticVal lat lon years
        = applyMitigationStrategy v tacticVal lat lon ((⌊years⌋ : ℤ) : ℚ) := by
  have hmem := List.mem_of_find?_eq_some hfind
  obtain ⟨hr0, hr1⟩ := rate_bounds t hmem
  have hbase0 : (0 : ℚ) ≤ 1 - t.rate := by linarith
  have hpow0 : (0 : ℚ) ≤ (1 - t.rate) ^ ⌊years⌋ := zpow_nonneg hbase0 _
  have hmain : applyMitigationStrategy v tacticVal lat lon years
      = v * (1 - t.rate) ^ ⌊years⌋ := by
    rw [applyMitigationStrategy_found hfind, if_pos happ]
    simp only [htype]
    exact max_eq_left (mul_nonneg hv hpow0)
  refine ⟨hmain, ?_⟩
  rw [hmain, applyMitigationStrategy_found hfind, if_pos happ]
  simp only [htype, Int.floor_intCast]
  exact (max_eq_left (mul_nonneg hv hpow0)).symm

/-- Claim C1 as frozen is refuted at the raw value -100: the code
clamps the PerYear result to 0 instead of returning the claimed
-100 times (0.6) cubed, which is -108/5. -/
theorem perYear_apply_decay_cex :
    applyMitigationStrategy (-100) "river" 0 0 3 = 0 ∧
      (-100 : ℚ) * (1 - riverTactic.rate) ^ ⌊(3 : ℚ)⌋ = -108/5 ∧
      (0 : ℚ) ≠ -108/5 := by
  refine ⟨?_, ?_, by norm_num⟩
  · simp [applyMitigationStrategy, tactics, List.find?, noneTactic, coastalTactic,
      openoceanTactic, globalbanTactic, riverTactic]
    norm_num
  · rw [show ⌊(3 : ℚ)⌋ = (3 : ℤ) from by norm_num]
    norm_num [riverTactic]

/-- Concrete instance of the amended claim C1, matching the example of
the spec: applying the river tactic at the origin for 3 elapsed years
scales 100 by (0.6) cubed. -/
theorem perYear_apply_decay_witness :
    applyMitigationStrategy 100 "river" 0 0 3 = 100 * (1 - riverTactic.rate) ^ ⌊(3 : ℚ)⌋ ∧
      applyMitigationStrategy 100 "river" 0 0 3
        = applyMitigationStrategy 100 "river" 0 0 ((⌊(3 : ℚ)⌋ : ℤ) : ℚ) :=
  perYear_apply_decay "river" riverTactic find_river rfl 100 0 0 3
    (by norm_num [riverTactic]) (by norm_num) (by norm_num)

/-- Claim C2, amended: for a raw value at most 0, the MitigationSim
variant of the apply operation returns 0 for every tactic, location and
time; the AIYearHeatmapMitigation variant returns 0 whenever the
selected tactic exists in the catalog and its predicate holds at the
location, but, as the counterexample shows, hands a negative raw value
back unchanged when the tactic is unknown or its predicate is
false. -/
theorem nonpositive_apply_zero (v : ℚ) (hv : v ≤ 0) :
    (∀ (tacticVal : String) (lat lon : ℚ),
        MitigationSim.applyMitigation v tacticVal lat lon = 0) ∧
    (∀ (tacticVal : String) (t : Tactic),
        tactics.find? (fun x => x.value == tacticVal) = Option.some t →
        ∀ (lat lon years : ℚ), t.applies lat lon = true →
          applyMitigationStrategy v tacticVal lat lon years = 0) := by
  constructor
  · intro tacticVal lat lon
    unfold MitigationSim.applyMitigation
    rw [if_pos hv]
  · intro tacticVal t hfind lat lon years happ
    have hmem := List.mem_of_find?_eq_some hfind
    obtain ⟨hr0, hr1⟩ := rate_bounds t hmem
    have hbase0 : (0 : ℚ) ≤ 1 - t.rate := by linarith
    rw [applyMitigationStrategy_found hfind, if_pos happ]
    rcases ht : t.type with _ | _ | _ <;> simp only [ht]
    · exact max_eq_right hv
    · have hpow0 : (0 : ℚ) ≤ (1 - t.rate) ^ ⌊years⌋ := zpow_nonneg hbase0 _
      have : v * (1 - t.rate) ^ ⌊years⌋ ≤ 0 := mul_nonpos_of_nonpos_of_nonneg hv hpow0
      exact max_eq_right this
    · have : v * (1 - t.rate) ≤ 0 := mul_nonpos_of_nonpos_of_nonneg hv hbase0
      exact max_eq_right this

/-- Claim C2 as frozen is refuted at the raw value -5 with the river
tactic at latitude 50: the predicate is false there, so
applyMitigationStrategy returns -5 unchanged instead of the claimed
0. -/
theorem nonpositive_apply_zero_cex :
    applyMitigationStrategy (-5) "river" 50 0 3 = -5 ∧ (-5 : ℚ) ≠ 0 := by
  refine ⟨?_, by norm_num⟩
  rw [applyMitigationStrategy_found find_river]
  rw [if_neg ?_]
  norm_num [riverTactic]

/-- Concrete instance of the amended claim C2 at raw value -3. -/
theorem nonpositive_apply_zero_witness :
    MitigationSim.applyMitigation (-3) "river" 0 0 = 0 ∧
      applyMitigationStrategy (-3) "globalban" 0 0 5 = 0 :=
  ⟨(nonpositive_apply_zero (-3) (by norm_num)).1 "river" 0 0,
   (nonpositive_apply_zero (-3) (by norm_num)).2 "globalban" globalbanTactic
     find_globalban 0 0 5 rfl⟩

/-- Claim C3, amended: a OneTime tactic gives the same adjusted value
after 1 and after 100 elapsed years, for every raw value; the common
value equals the raw value times (1 - rate) whenever the predicate
holds and the raw value is nonnegative.  For a negative raw value the
clamp at zero intervenes, as the counterexample shows. -/
theorem oneTime_apply_time_invariant (tacticVal : String) (t : Tactic)
    (hfind : tactics.find? (fun x => x.value == tacticVal) = Option.some t)
    (htype : t.type = TacticType.oneTime) (v lat lon : ℚ) :
    applyMitigationStrategy v tacticVal lat lon 1 = applyMitigationStrategy v tacticVal lat lon 100 ∧
      (0 ≤ v → t.applies lat lon = true →
        applyMitigationStrategy v tacticVal lat lon 1 = v * (1 - t.rate)) := by
  have hmem := List.mem_of_find?_eq_some hfind
  obtain ⟨hr0, hr1⟩ := rate_bounds t hmem
  have hbase0 : (0 : ℚ) ≤ 1 - t.rate := by linarith
  constructor
  · rw [applyMitigationStrategy_found hfind, applyMitigationStrategy_found hfind]
    by_cases happ : t.applies lat lon = true
    · rw [if_pos happ, if_pos happ]
      simp only [htype]
    · rw [if_neg happ, if_neg happ]
  · intro hv happ
    rw [applyMitigationStrategy_found hfind, if_pos happ]
    simp only [htype]
    exact max_eq_left (mul_nonneg hv hbase0)

/-- Claim C3 as frozen is refuted at the raw value -100 with the
globalban tactic (whose predicate always holds): the adjusted value is
clamped to 0 instead of the claimed -100 times (1 - 0.5) = -50. -/
theorem oneTime_apply_time_invariant_cex :
    applyMitigationStrategy (-100) "globalban" 0 0 1 = 0 ∧
      (-100 : ℚ) * (1 - globalbanTactic.rate) = -50 ∧ (0 : ℚ) ≠ -50 := by
  refine ⟨?_, by norm_num [globalbanTactic], by norm_num⟩
  rw [applyMitigationStrategy_found find_globalban,
    if_pos (show globalbanTactic.applies 0 0 = true from rfl)]
  norm_num [globalbanTactic]

/-- Concrete instance of the amended claim C3: the globalban tactic
halves 100 regardless of elapsed time. -/
theorem oneTime_apply_time_invariant_witness :
    applyMitigationStrategy 100 "globalban" 0 0 1
        = applyMitigationStrategy 100 "globalban" 0 0 100 ∧
      applyMitigationStrategy 100 "globalban" 0 0 1 = 100 * (1 - globalbanTactic.rate) :=
  ⟨(oneTime_apply_time_invariant "globalban" globalbanTactic find_globalban rfl 100 0 0).1,
   (oneTime_apply_time_invariant "globalban" globalbanTactic find_globalban rfl 100 0 0).2
     (by norm_num) rfl⟩

/-- Claim C5, amended: when the looked-up tactic has a false predicate
at the location, the apply operation returns the raw value unchanged
for every raw value and elapsed time; when the tactic has kind None the
raw value is returned unchanged provided it is nonnegative.  For a
negative raw value the None branch still passes through the final clamp
at zero, as the counterexample shows. -/
theorem inert_apply_identity (tacticVal : String) (t : Tactic)
    (hfind : tactics.find? (fun x => x.value == tacticVal) = Option.some t)
    (v lat lon years : ℚ) :
    (t.applies lat lon = false → applyMitigationStrategy v tacticVal lat lon years = v) ∧
      (t.type = TacticType.none → 0 ≤ v →
        applyMitigationStrategy v tacticVal lat lon years = v) := by
  constructor
  · intro happ
    rw [applyMitigationStrategy_found hfind, if_neg ?_]
    rw [happ]
    simp
  · intro htype hv
    rw [applyMitigationStrategy_found hfind]
    by_cases happ : t.applies lat lon = true
    · rw [if_pos happ]
      simp only [htype]
      exact max_eq_left hv
    · rw [if_neg happ]

/-- Claim C5 as frozen is refuted at the raw value -5 with the
kind-None tactic: the final clamp returns 0 instead of the claimed
unchanged value -5. -/
theorem inert_apply_identity_cex :
    applyMitigationStrategy (-5) "none" 0 0 1 = 0 ∧ (-5 : ℚ) ≠ 0 := by
  refine ⟨?_, by norm_num⟩
  rw [applyMitigationStrategy_found find_none,
    if_pos (show noneTactic.applies 0 0 = true from rfl)]
  norm_num [noneTactic]

/-- Concrete instances of the amended claim C5: the river tactic at
latitude 50 leaves 7 unchanged, and the None tactic leaves 7
unchanged. -/
theorem inert_apply_identity_witness :
    applyMitigationStrategy 7 "river" 50 0 3 = 7 ∧
      applyMitigationStrategy 7 "none" 0 0 3 = 7 :=
  ⟨(inert_apply_identity "river" riverTactic find_river 7 50 0 3).1
     (by norm_num [riverTactic]),
   (inert_apply_identity "none" noneTactic find_none 7 0 0 3).2 rfl (by norm_num)⟩

/-- Claim C4: for a positive raw value and nonnegative elapsed time,
the adjusted value lies in the closed interval from 0 to the raw
value, for every tactic identifier, in both the
AIYearHeatmapMitigation variant and the part_002 variant of the apply
operation. -/
theorem apply_bounded (tacticVal : String) (lat lon years v : ℚ)
    (hy : 0 ≤ years) (hv : 0 < v) :
    (0 ≤ applyMitigationStrategy v tacticVal lat lon years ∧
        applyMitigationStrategy v tacticVal lat lon years ≤ v) ∧
      (0 ≤ Part002.applyMitigation v tacticVal lat lon ∧
        Part002.applyMitigation v tacticVal lat lon ≤ v) := by
  constructor
  · rcases hfind : tactics.find? (fun x => x.value == tacticVal) with _ | t
    · rw [applyMitigationStrategy_not_found hfind]
      exact ⟨le_of_lt hv, le_refl v⟩
    · have hmem := List.mem_of_find?_eq_some hfind
      obtain ⟨hr0, hr1⟩ := rate_bounds t hmem
      have hbase0 : (0 : ℚ) ≤ 1 - t.rate := by linarith
      have hbase1 : (1 : ℚ) - t.rate ≤ 1 := by linarith
      rw [applyMitigationStrategy_found hfind]
      by_cases happ : t.applies lat lon = true
      · rw [if_pos happ]
        have hfloor : (0 : ℤ) ≤ ⌊years⌋ := Int.floor_nonneg.mpr hy
        have hfle : ∀ f : ℚ, f ≤ v → max f 0 ≤ v := fun f hf =>
          max_le hf (le_of_lt hv)
        refine ⟨le_max_right _ _, ?_⟩
        rcases ht : t.type with _ | _ | _ <;> simp only [ht]
        · exact hfle v (le_refl v)
        · refine hfle _ ?_
          have hp1 : (1 - t.rate) ^ ⌊years⌋ ≤ 1 := zpow_factor_le_one hbase0 hbase1 hfloor
          calc v * (1 - t.rate) ^ ⌊years⌋ ≤ v * 1 :=
                mul_le_mul_of_nonneg_left hp1 (le_of_lt hv)
            _ = v := mul_one v
        · refine hfle _ ?_
          calc v * (1 - t.rate) ≤ v * 1 := mul_le_mul_of_nonneg_left hbase1 (le_of_lt hv)
            _ = v := mul_one v
      · rw [if_neg happ]
        exact ⟨le_of_lt hv, le_refl v⟩
  · unfold Part002.applyMitigation
    split_ifs <;> constructor <;> nlinarith [abs_nonneg lat, abs_nonneg lon]

/-- Concrete instance of claim C4 at the globalban tactic with raw
value 100 and 5 elapsed years. -/
theorem apply_bounded_witness :
    (0 ≤ applyMitigationStrategy 100 "globalban" 0 0 5 ∧
        applyMitigationStrategy 100 "globalban" 0 0 5 ≤ 100) ∧
      (0 ≤ Part002.applyMitigation 100 "globalban" 0 0 ∧
        Part002.applyMitigation 100 "globalban" 0 0 ≤ 100) :=
  apply_bounded "globalban" 0 0 5 100 (by norm_num) (by norm_num)

/-- Claim C10: a tactic identifier that does not occur in the catalog
leaves a positive raw value unchanged in both the
AIYearHeatmapMitigation variant and the MitigationSim variant of the
apply operation. -/
theorem unknown_tactic_identity (tacticVal : String)
    (hunknown : tacticVal ∉ tactics.map (fun t => t.value))
    (v lat lon years : ℚ) (hv : 0 < v) :
    applyMitigationStrategy v tacticVal lat lon years = v ∧
      MitigationSim.applyMitigation v tacticVal lat lon = v := by
  have hfind : tactics.find? (fun x => x.value == tacticVal) = Option.none := by
    rw [List.find?_eq_none]
    intro t ht hbeq
    exact hunknown (List.mem_map.mpr ⟨t, ht, (beq_iff_eq.mp hbeq)⟩)
  constructor
  · exact applyMitigationStrategy_not_found hfind v lat lon years
  · unfold MitigationSim.applyMitigation
    rw [if_neg (not_le.mpr hv), hfind]

/-- Concrete instance of claim C10 at the unknown identifier "foo". -/
theorem unknown_tactic_identity_witness :
    applyMitigationStrategy 42 "foo" 3 4 5 = 42 ∧
      MitigationSim.applyMitigation 42 "foo" 3 4 = 42 :=
  unknown_tactic_identity "foo" (by decide) 42 3 4 5 (by norm_num)

/-- The grid step cast to the integers. -/
lemma gridStep_cast : ((gridStep : ℕ) : ℤ) = 10 := rfl

/-- Membership in latPoints as a stepped progression. -/
lemma mem_latPoints {box : BoundingBox} {a : ℤ} :
    a ∈ latPoints box ↔
      ∃ i : ℕ, a = ⌊box.minLat⌋ + (i : ℤ) * 10 ∧ a ≤ ⌈box.maxLat⌉ := by
  unfold latPoints
  rw [mem_axisPoints (by norm_num [gridStep])]
  simp only [gridStep_cast]

/-- Membership in lonPoints as a stepped progression. -/
lemma mem_lonPoints {box : BoundingBox} {a : ℤ} :
    a ∈ lonPoints box ↔
      ∃ j : ℕ, a = ⌊box.minLon⌋ + (j : ℤ) * 10 ∧ a ≤ ⌈box.maxLon⌉ := by
  unfold lonPoints
  rw [mem_axisPoints (by norm_num [gridStep])]
  simp only [gridStep_cast]

/-- Claim C6: the grid sampler emits exactly the step-10 lattice points
whose latitude lies between the floor of minLat and the ceiling of
maxLat and whose longitude lies between the floor of minLon and the
ceiling of maxLon, in longitude-major, latitude-minor order; on the box
from (0,0) to (20,20) this is the nine listed points. -/
theorem grid_sampler_spec :
    (∀ (box : BoundingBox) (p : ℤ × ℤ),
        p ∈ inputArray box ↔
          ((∃ i : ℕ, p.1 = ⌊box.minLat⌋ + (i : ℤ) * 10 ∧ p.1 ≤ ⌈box.maxLat⌉) ∧
           (∃ j : ℕ, p.2 = ⌊box.minLon⌋ + (j : ℤ) * 10 ∧ p.2 ≤ ⌈box.maxLon⌉))) ∧
      inputArray ⟨0, 20, 0, 20, 0, 0⟩ =
        [(0, 0), (10, 0), (20, 0), (0, 10), (10, 10), (20, 10),
         (0, 20), (10, 20), (20, 20)] := by
  constructor
  · intro box p
    constructor
    · intro hp
      obtain ⟨lon, hlon, hmem2⟩ := List.mem_flatMap.mp hp
      obtain ⟨lat, hlat, hEq⟩ := List.mem_map.mp hmem2
      subst hEq
      exact ⟨mem_latPoints.mp hlat, mem_lonPoints.mp hlon⟩
    · rintro ⟨hlat, hlon⟩
      refine List.mem_flatMap.mpr ⟨p.2, mem_lonPoints.mpr hlon, ?_⟩
      exact List.mem_map.mpr ⟨p.1, mem_latPoints.mpr hlat, Prod.mk.eta⟩
  · have hlat2 : latPoints ⟨0, 20, 0, 20, 0, 0⟩ = [0, 10, 20] := by
      simp [latPoints, axisPoints, gridStep]
      decide
    have hlon2 : lonPoints ⟨0, 20, 0, 20, 0, 0⟩ = [0, 10, 20] := by
      simp [lonPoints, axisPoints, gridStep]
      decide
    unfold inputArray
    rw [hlat2, hlon2]
    decide

/-- Claim C7, amended: the cleaning rule excludes a record exactly when
latitude, longitude or concentration is missing or non-numeric, or one
of the three equals the sentinel -9999, or the year field is present
but non-numeric; no geographic range check is performed, as the
counterexample shows, and retained records keep their source insertion
order. -/
theorem clean_rule_characterization :
    (∀ r : RawRow,
        cleanRow r = Option.none ↔
          (parseNum r.lat = Option.none ∨ parseNum r.lon = Option.none ∨
           parseNum r.pieces = Option.none ∨
           parseNum r.lat = Option.some (-9999) ∨
           parseNum r.lon = Option.some (-9999) ∨
           parseNum r.pieces = Option.some (-9999) ∨
           yearParse r.year = Option.none)) ∧
      (∀ rows : List RawRow, List.Sublist (cleanRows rows) rows) := by
  constructor
  · intro r
    rcases hY : yearParse r.year with _ | y <;>
      rcases hLa : parseNum r.lat with _ | la <;>
        rcases hLo : parseNum r.lon with _ | lo <;>
          rcases hPc : parseNum r.pieces with _ | pc <;>
            simp [cleanRow, hY, hLa, hLo, hPc] <;> tauto
  · intro rows
    exact List.filter_sublist rows

/-- Claim C7 as frozen is refuted by a record with latitude 200: all
three required fields are numeric and differ from the sentinel, so the
code retains the record even though 200 lies outside the valid
latitude range from -90 to 90 and the claim demands exclusion. -/
theorem clean_rule_cex :
    cleanRow ⟨RawField.num 200, RawField.num 0, RawField.num 5, RawField.num 2000⟩
        = Option.some ⟨200, 0, 5, 2000⟩ ∧
      ¬ ((200 : ℚ) ≤ 90) := by
  constructor
  · show (if (200 : ℚ) = -9999 ∨ (0 : ℚ) = -9999 ∨ (5 : ℚ) = -9999 then Option.none
        else Option.some (⟨200, 0, 5, 2000⟩ : Observation))
      = Option.some (⟨200, 0, 5, 2000⟩ : Observation)
    rw [if_neg (by norm_num)]
  · norm_num

/-- Claim C9: a record whose year field is absent is kept (when its
other fields are valid) and receives the default year constant 2025,
while a record whose year field is present but unparseable is
excluded. -/
theorem default_year_assignment :
    (∀ la lo pc : ℚ, la ≠ -9999 → lo ≠ -9999 → pc ≠ -9999 →
        cleanRow ⟨RawField.num la, RawField.num lo, RawField.num pc, RawField.missing⟩
          = Option.some ⟨la, lo, pc, 2025⟩) ∧
      (∀ r : RawRow, r.year = RawField.nonNumeric → cleanRow r = Option.none) := by
  constructor
  · intro la lo pc h1 h2 h3
    show (if la = -9999 ∨ lo = -9999 ∨ pc = -9999 then Option.none
        else Option.some (⟨la, lo, pc, defaultYear⟩ : Observation))
      = Option.some (⟨la, lo, pc, 2025⟩ : Observation)
    rw [if_neg (by tauto)]
    rfl
  · intro r hr
    obtain ⟨la, lo, pc, yr⟩ := r
    simp only at hr
    subst hr
    rfl

/-- Concrete instance of claim C9: the record (1, 2, 3) with missing
year is kept with year 2025, and the same record with an unparseable
year is dropped. -/
theorem default_year_assignment_witness :
    cleanRow ⟨RawField.num 1, RawField.num 2, RawField.num 3, RawField.missing⟩
        = Option.some ⟨1, 2, 3, 2025⟩ ∧
      cleanRow ⟨RawField.num 1, RawField.num 2, RawField.num 3, RawField.nonNumeric⟩
        = Option.none :=
  ⟨default_year_assignment.1 1 2 3 (by norm_num) (by norm_num) (by norm_num),
   default_year_assignment.2 ⟨RawField.num 1, RawField.num 2, RawField.num 3,
     RawField.nonNumeric⟩ rfl⟩

/-- Claim C8: when every model cached under the current versioned key
has the expected input shape (the only writer stores the current
three-feature architecture under that key, while models from older
schema revisions sit under older keys), mounting either falls back to
retraining or uses a model of the expected shape; in particular an
incompatible cached model is never silently reused and a cache miss
degrades to retraining, never a crash. -/
theorem model_load_shape_guard (store : ModelStore)
    (hstore : ∀ m : SavedModel, (MODEL_URL, m) ∈ store → m.inputShape = expectedInputShape) :
    mountModel store = MountResult.retrain ∨
      ∃ m : SavedModel, mountModel store = MountResult.useLoaded m ∧
        m.inputShape = expectedInputShape := by
  rcases hfind : store.find? (fun e => e.1 == MODEL_URL) with _ | e
  · left
    unfold mountModel loadLayersModel
    rw [hfind]
    rfl
  · right
    have hp := List.find?_some hfind
    have he1 : e.1 = MODEL_URL := beq_iff_eq.mp hp
    have hmem := List.mem_of_find?_eq_some hfind
    refine ⟨e.2, ?_, ?_⟩
    · unfold mountModel loadLayersModel
      rw [hfind]
      rfl
    · apply hstore
      rw [← he1, Prod.mk.eta]
      exact hmem

/-- Concrete instance of claim C8: a two-feature model cached under the
old unversioned key from an earlier schema revision is not found under
the current versioned key, so mounting retrains instead of reusing
it. -/
theorem model_load_shape_guard_witness :
    mountModel [("localstorage://microplastics-model", ⟨2, 1⟩)] = MountResult.retrain ∨
      ∃ m : SavedModel,
        mountModel [("localstorage://microplastics-model", ⟨2, 1⟩)]
            = MountResult.useLoaded m ∧
          m.inputShape = expectedInputShape :=
  model_load_shape_guard [("localstorage://microplastics-model", ⟨2, 1⟩)] (by
    intro m hm
    rw [List.mem_singleton, Prod.mk.injEq] at hm
    exact absurd hm.1 (by decide))
